import Mathlib

/-!
Shallow embedding of src/homeassistant/components/samsungtv/media_player.py.

The SamsungTVDevice entity is modelled as an explicit state record
(DeviceState).  The cooperative-async methods of the Python class become
pure Lean functions from a state (plus an environment describing what the
external collaborators — the bridge, the UPnP factory, clocks — would
answer at this tick) to a new state, a trace of externally visible events,
and an optionally escaping exception.  Time is modelled as a Nat timestamp
(dt_util.utcnow becomes an explicit now argument).
-/

/-- Power state strings STATE_ON / STATE_OFF from homeassistant.const. -/
inductive TVState where
  | on
  | off
deriving DecidableEq, Repr

/-- Exceptions of the async_upnp_client hierarchy that the code
distinguishes: UpnpResponseError (subscription rejection),
UpnpConnectionError, and any other UpnpError. -/
inductive UpnpErr where
  | responseError
  | connectionError
  | otherError
deriving DecidableEq, Repr

/-- Externally visible effects of a method call: bridge dispatches, writes
of the debounce deadline, and UPnP receiver / handler lifecycle steps. -/
inductive Event where
  | setDeadline (t : Nat)
  | powerOff
  | isOnQuery (result : Bool)
  | sendKeys (keys : List String)
  | launchApp (appId : String)
  | requestAppList
  | waitAppList
  | createDevice
  | serverStart
  | attachHandler
  | subscribe
  | detachHandler
  | unsubscribe
  | serverStop
  | setVolume (v : Nat)
  | runOnScript
  | wakeOnLan
deriving DecidableEq, Repr

/-- Model of the DmrDevice handle: whether the on_event handler is
attached, and the last pushed volume / mute fields (None until an event
delivers them).  Volume is an abstract Nat level. -/
structure DmrDeviceM where
  on_event_attached : Bool
  volume_level : Option Nat
  is_volume_muted : Option Bool
deriving DecidableEq, Repr

/-- Model of the AiohttpNotifyServer local receiver. -/
structure UpnpServerM where
  running : Bool
deriving DecidableEq, Repr

/-- Mutable state of a SamsungTVDevice instance (the self fields the core
logic reads and writes). -/
structure DeviceState where
  attr_state : Option TVState
  auth_failed : Bool
  end_of_power_off : Option Nat
  app_list : Option (List (String × String))
  app_list_event : Bool
  attr_source_list : List String
  dmr_device : Option DmrDeviceM
  upnp_server : Option UpnpServerM
  on_script : Bool
  mac : Option String
  ssdp_rendering_control_location : Option String
  attr_volume_level : Option Nat
  attr_is_volume_muted : Bool
  playing : Bool
deriving DecidableEq, Repr

/-- Environment of one tick: the clock, the host shutdown flag, and what
each external collaborator would answer if called this tick. -/
structure TickEnv where
  now : Nat
  hass_is_stopping : Bool
  is_on : Bool
  app_list_delivery : Option (List (String × String))
  create_device_ok : Bool
  subscribe_err : Option UpnpErr
  dmr_volume : Option Nat
  dmr_muted : Option Bool
deriving DecidableEq, Repr

/-- Modelled from the spec: DEFAULT_SCAN_INTERVAL of
homeassistant.helpers.entity_component (the poll interval), which is not
under src/; seconds. -/
def DEFAULT_SCAN_INTERVAL : Nat := 15

/-- SCAN_INTERVAL_PLUS_OFF_TIME = DEFAULT_SCAN_INTERVAL + timedelta(seconds=5). -/
def SCAN_INTERVAL_PLUS_OFF_TIME : Nat := DEFAULT_SCAN_INTERVAL + 5

/-- SOURCES = {"TV": "KEY_TV", "HDMI": "KEY_HDMI"}. -/
def SOURCES : List (String × String) := [("TV", "KEY_TV"), ("HDMI", "KEY_HDMI")]

/-- Method _power_off_in_progress: the deadline is set and strictly after
utcnow. -/
def powerOffInProgress (s : DeviceState) (now : Nat) : Bool :=
  match s.end_of_power_off with
  | some t => now < t
  | none => false

/-- Method _update_sources: source list is the built-in SOURCES keys
extended with the discovered app names, if any. -/
def updateSources (s : DeviceState) : DeviceState :=
  let base := SOURCES.map Prod.fst
  match s.app_list with
  | some m => { s with attr_source_list := base ++ m.map Prod.fst }
  | none => { s with attr_source_list := base }

/-- Method _app_list_callback: store the delivered map, refresh sources,
set the app-list event. -/
def appListCallback (s : DeviceState) (m : List (String × String)) : DeviceState :=
  let s1 := { s with app_list := some m }
  let s2 := updateSources s1
  { s2 with app_list_event := true }

/-- Method access_denied: the reauth callback sets the sticky auth-failure
flag (the reauth flow creation is external and not modelled). -/
def accessDenied (s : DeviceState) : DeviceState :=
  { s with auth_failed := true }

/-- Property available. -/
def available (s : DeviceState) (now : Nat) : Bool :=
  if s.auth_failed then
    false
  else
    s.attr_state == some TVState.on || s.on_script || s.mac.isSome
      || powerOffInProgress s now

/-- Method _update_from_upnp: copy volume / mute from the DMR handle when
present. -/
def updateFromUpnp (s : DeviceState) : DeviceState :=
  match s.dmr_device with
  | none => s
  | some d =>
    let s1 :=
      match d.volume_level with
      | some v => { s with attr_volume_level := some v }
      | none => s
    match d.is_volume_muted with
    | some m => { s1 with attr_is_volume_muted := m }
    | none => s1

/-- Method _async_startup_app_list: request the list from the bridge, then
if the event is still unset wait up to APP_LIST_DELAY; delivery applies the
callback, timeout sets the event itself. -/
def asyncStartupAppList (s : DeviceState) (env : TickEnv) :
    DeviceState × List Event :=
  if s.app_list_event then
    (s, [Event.requestAppList])
  else
    match env.app_list_delivery with
    | some m => (appListCallback s m, [Event.requestAppList, Event.waitAppList])
    | none =>
      ({ s with app_list_event := true },
        [Event.requestAppList, Event.waitAppList])

/-- Method _async_startup_dmr.  create_device_ok = false models the
suppressed UpnpConnectionError of async_create_device (upnp_device stays
None and the method returns).  subscribe_err models what
async_subscribe_services raises: a UpnpResponseError is logged and the
session kept; any other UpnpError (connection error included) detaches the
handler, clears the handle, stops and clears the receiver, and re-raises. -/
def asyncStartupDmr (s : DeviceState) (env : TickEnv) :
    DeviceState × List Event × Option UpnpErr :=
  if s.dmr_device.isSome then
    (s, [], none)
  else if !env.create_device_ok then
    (s, [Event.createDevice], none)
  else
    let s1 := { s with upnp_server := some { running := true } }
    let s2 := { s1 with
      dmr_device := some
        { on_event_attached := true
          volume_level := env.dmr_volume
          is_volume_muted := env.dmr_muted } }
    let t0 := [Event.createDevice, Event.serverStart, Event.attachHandler,
      Event.subscribe]
    match env.subscribe_err with
    | none => (s2, t0, none)
    | some UpnpErr.responseError => (s2, t0, none)
    | some e =>
      ({ s2 with dmr_device := none, upnp_server := none },
        t0 ++ [Event.detachHandler, Event.serverStop], some e)

/-- Method _async_shutdown_dmr: detach the handler and unsubscribe if a
handle exists, then stop the receiver if one exists; idempotent. -/
def asyncShutdownDmr (s : DeviceState) : DeviceState × List Event :=
  let s1 := if s.dmr_device.isSome then { s with dmr_device := none } else s
  let t1 : List Event :=
    if s.dmr_device.isSome then [Event.detachHandler, Event.unsubscribe] else []
  if s1.upnp_server.isSome then
    ({ s1 with upnp_server := none }, t1 ++ [Event.serverStop])
  else
    (s1, t1)

/-- Body of the asyncio.gather call of async_update: the two startup tasks
of one tick.  The task conditions are read before either task runs (the
Bool arguments are computed on the state at the top of the gather call);
the tasks then apply in sequence, and an error from the DMR task escapes
the gather. -/
def runStartupTasks (s1 : DeviceState) (env : TickEnv)
    (doAppList doDmr : Bool) : DeviceState × List Event × Option UpnpErr :=
  let p2 := if doAppList then asyncStartupAppList s1 env else (s1, [])
  let p3 := if doDmr then asyncStartupDmr p2.1 env else (p2.1, [], none)
  (p3.1, p2.2 ++ p3.2.1, p3.2.2)

/-- Tail of one tick of async_update: when the gather escaped with an
error, async_update re-raises it before reaching _update_from_upnp;
otherwise _update_from_upnp runs. -/
def finishTick (r : DeviceState × List Event × Option UpnpErr)
    (t1 : List Event) : DeviceState × List Event × Option UpnpErr :=
  if r.2.2.isSome then
    (r.1, t1 ++ r.2.1, r.2.2)
  else
    (updateFromUpnp r.1, t1 ++ r.2.1, none)

/-- Method async_update, one polling tick: early return on auth failure or
host shutdown; report OFF while the debounce deadline is in the future,
else query the bridge; when the result is ON, run the app-list gate and the
DMR startup (runStartupTasks), then refresh from UPnP (finishTick).  An
error raised by the DMR startup escapes async_update uncaught (the last
component of the result). -/
def asyncUpdate (s : DeviceState) (env : TickEnv) :
    DeviceState × List Event × Option UpnpErr :=
  if s.auth_failed || env.hass_is_stopping then
    (s, [], none)
  else
    let s1 :=
      if powerOffInProgress s env.now then
        { s with attr_state := some TVState.off }
      else
        { s with attr_state := some (if env.is_on then TVState.on else TVState.off) }
    let t1 : List Event :=
      if powerOffInProgress s env.now then [] else [Event.isOnQuery env.is_on]
    if s1.attr_state ≠ some TVState.on then
      (s1, t1, none)
    else
      finishTick
        (runStartupTasks s1 env (!s1.app_list_event)
          (s1.dmr_device.isNone && s1.ssdp_rendering_control_location.isSome))
        t1

/-- Method _async_launch_app: suppressed while power off is in progress. -/
def asyncLaunchApp (s : DeviceState) (now : Nat) (appId : String) :
    DeviceState × List Event :=
  if powerOffInProgress s now then (s, []) else (s, [Event.launchApp appId])

/-- Method _async_send_keys: suppressed while power off is in progress
unless the first key is KEY_POWEROFF. -/
def asyncSendKeys (s : DeviceState) (now : Nat) (keys : List String) :
    DeviceState × List Event :=
  if powerOffInProgress s now && !(keys.head? == some "KEY_POWEROFF") then
    (s, [])
  else
    (s, [Event.sendKeys keys])

/-- Method async_turn_off: write the debounce deadline, then dispatch the
bridge power-off; the trace records the two effects in program order. -/
def asyncTurnOff (s : DeviceState) (now : Nat) : DeviceState × List Event :=
  let deadline := now + SCAN_INTERVAL_PLUS_OFF_TIME
  ({ s with end_of_power_off := some deadline },
    [Event.setDeadline deadline, Event.powerOff])

/-- Method async_set_volume_level: no-op without a DMR handle; device-side
rejection is swallowed, so the entity state is unchanged either way. -/
def asyncSetVolumeLevel (s : DeviceState) (volume : Nat) :
    DeviceState × List Event :=
  match s.dmr_device with
  | none => (s, [])
  | some _ => (s, [Event.setVolume volume])

/-- Method async_volume_up. -/
def asyncVolumeUp (s : DeviceState) (now : Nat) : DeviceState × List Event :=
  asyncSendKeys s now ["KEY_VOLUP"]

/-- Method async_volume_down. -/
def asyncVolumeDown (s : DeviceState) (now : Nat) : DeviceState × List Event :=
  asyncSendKeys s now ["KEY_VOLDOWN"]

/-- Method async_mute_volume: the mute argument is ignored and KEY_MUTE is
sent. -/
def asyncMuteVolume (s : DeviceState) (now : Nat) (_mute : Bool) :
    DeviceState × List Event :=
  asyncSendKeys s now ["KEY_MUTE"]

/-- Method async_media_play: set playing, then send KEY_PLAY. -/
def asyncMediaPlay (s : DeviceState) (now : Nat) : DeviceState × List Event :=
  asyncSendKeys { s with playing := true } now ["KEY_PLAY"]

/-- Method async_media_pause: clear playing, then send KEY_PAUSE. -/
def asyncMediaPause (s : DeviceState) (now : Nat) : DeviceState × List Event :=
  asyncSendKeys { s with playing := false } now ["KEY_PAUSE"]

/-- Method async_media_play_pause. -/
def asyncMediaPlayPause (s : DeviceState) (now : Nat) : DeviceState × List Event :=
  if s.playing then asyncMediaPause s now else asyncMediaPlay s now

/-- Method async_media_next_track. -/
def asyncMediaNextTrack (s : DeviceState) (now : Nat) : DeviceState × List Event :=
  asyncSendKeys s now ["KEY_CHUP"]

/-- Method async_media_previous_track. -/
def asyncMediaPreviousTrack (s : DeviceState) (now : Nat) :
    DeviceState × List Event :=
  asyncSendKeys s now ["KEY_CHDOWN"]

/-- Method async_play_media: app launches by id, channels validate a
positive integer id then send the digit keys plus KEY_ENTER; anything else
is logged and dropped. -/
def asyncPlayMedia (s : DeviceState) (now : Nat) (mediaType : String)
    (mediaId : String) : DeviceState × List Event :=
  if mediaType == "app" then
    asyncLaunchApp s now mediaId
  else if mediaType != "channel" then
    (s, [])
  else
    match mediaId.toNat? with
    | none => (s, [])
    | some _ =>
      asyncSendKeys s now
        ((mediaId.data.map fun d => "KEY_" ++ String.singleton d) ++ ["KEY_ENTER"])

/-- Method async_turn_on: run the on-script if configured, else wake on
LAN twice if a MAC is configured; no entity state changes. -/
def asyncTurnOn (s : DeviceState) : DeviceState × List Event :=
  if s.on_script then (s, [Event.runOnScript])
  else if s.mac.isSome then (s, [Event.wakeOnLan, Event.wakeOnLan])
  else (s, [])

/-- Method async_select_source: app names launch the app, built-in sources
send their key, anything else is logged and dropped. -/
def asyncSelectSource (s : DeviceState) (now : Nat) (source : String) :
    DeviceState × List Event :=
  match (s.app_list.getD []).lookup source with
  | some appId => asyncLaunchApp s now appId
  | none =>
    match SOURCES.lookup source with
    | some key => asyncSendKeys s now [key]
    | none => (s, [])

/-- Method _on_upnp_event: refresh the cached fields from the handle. -/
def onUpnpEvent (s : DeviceState) : DeviceState :=
  updateFromUpnp s

/-- Transition relation of the device instance: one constructor per public
or callback entry point of SamsungTVDevice, relating a state to the state
after that call. -/
inductive DeviceStep : DeviceState → DeviceState → Prop where
  | update (s : DeviceState) (env : TickEnv) : DeviceStep s (asyncUpdate s env).1
  | appList (s : DeviceState) (m : List (String × String)) :
      DeviceStep s (appListCallback s m)
  | denied (s : DeviceState) : DeviceStep s (accessDenied s)
  | turnOff (s : DeviceState) (now : Nat) : DeviceStep s (asyncTurnOff s now).1
  | turnOn (s : DeviceState) : DeviceStep s (asyncTurnOn s).1
  | sendKeys (s : DeviceState) (now : Nat) (keys : List String) :
      DeviceStep s (asyncSendKeys s now keys).1
  | launch (s : DeviceState) (now : Nat) (appId : String) :
      DeviceStep s (asyncLaunchApp s now appId).1
  | setVol (s : DeviceState) (v : Nat) : DeviceStep s (asyncSetVolumeLevel s v).1
  | volUp (s : DeviceState) (now : Nat) : DeviceStep s (asyncVolumeUp s now).1
  | volDown (s : DeviceState) (now : Nat) : DeviceStep s (asyncVolumeDown s now).1
  | mute (s : DeviceState) (now : Nat) (m : Bool) :
      DeviceStep s (asyncMuteVolume s now m).1
  | play (s : DeviceState) (now : Nat) : DeviceStep s (asyncMediaPlay s now).1
  | pause (s : DeviceState) (now : Nat) : DeviceStep s (asyncMediaPause s now).1
  | playPause (s : DeviceState) (now : Nat) :
      DeviceStep s (asyncMediaPlayPause s now).1
  | nextTrack (s : DeviceState) (now : Nat) :
      DeviceStep s (asyncMediaNextTrack s now).1
  | prevTrack (s : DeviceState) (now : Nat) :
      DeviceStep s (asyncMediaPreviousTrack s now).1
  | playMedia (s : DeviceState) (now : Nat) (ty id' : String) :
      DeviceStep s (asyncPlayMedia s now ty id').1
  | selectSource (s : DeviceState) (now : Nat) (src : String) :
      DeviceStep s (asyncSelectSource s now src).1
  | startupAppList (s : DeviceState) (env : TickEnv) :
      DeviceStep s (asyncStartupAppList s env).1
  | startupDmr (s : DeviceState) (env : TickEnv) :
      DeviceStep s (asyncStartupDmr s env).1
  | shutdownDmr (s : DeviceState) : DeviceStep s (asyncShutdownDmr s).1
  | upnpEvent (s : DeviceState) : DeviceStep s (onUpnpEvent s)

/-- Base concrete device state for witnesses: freshly initialized entity,
no optional features configured. -/
def baseDev : DeviceState :=
  { attr_state := none
    auth_failed := false
    end_of_power_off := none
    app_list := none
    app_list_event := false
    attr_source_list := ["TV", "HDMI"]
    dmr_device := none
    upnp_server := none
    on_script := false
    mac := none
    ssdp_rendering_control_location := none
    attr_volume_level := none
    attr_is_volume_muted := false
    playing := true }

/-- Base concrete tick environment for witnesses. -/
def baseEnv : TickEnv :=
  { now := 0
    hass_is_stopping := false
    is_on := false
    app_list_delivery := none
    create_device_ok := false
    subscribe_err := none
    dmr_volume := none
    dmr_muted := none }

/-- Availability predicate written from the claim's words following C9:
false whenever the auth-failure flag is set, otherwise true iff the state
is ON, or an on-script is configured, or a MAC is configured, or the
power-off debounce deadline is in the future. -/
def availableSpec (s : DeviceState) (now : Nat) : Bool :=
  if s.auth_failed then
    false
  else
    (s.attr_state == some TVState.on) || s.on_script || s.mac.isSome
      || (match s.end_of_power_off with
          | some t => decide (now < t)
          | none => false)

/-- C9: the entity's available property equals exactly the predicate
"false when auth failed, else state ON or on-script configured or MAC
configured or debounce deadline in the future". -/
theorem c9_available_exact (s : DeviceState) (now : Nat) :
    available s now = availableSpec s now := by
  unfold available availableSpec powerOffInProgress
  rfl

/-- C10: async_mute_volume ignores its boolean argument: from any state
the two runs are identical, and each dispatches exactly the single key
KEY_MUTE or is suppressed. -/
theorem c10_mute_ignores_argument (s : DeviceState) (now : Nat) (m1 m2 : Bool) :
    asyncMuteVolume s now m1 = asyncMuteVolume s now m2 ∧
    ((asyncMuteVolume s now m1).2 = [Event.sendKeys ["KEY_MUTE"]] ∨
      (asyncMuteVolume s now m1).2 = []) := by
  refine ⟨rfl, ?_⟩
  unfold asyncMuteVolume asyncSendKeys
  split
  · exact Or.inr rfl
  · exact Or.inl rfl

/-- C6: async_turn_off writes the debounce deadline equal to now plus the
poll interval plus the 5-second slack, and the trace places the deadline
write strictly before the bridge power-off dispatch. -/
theorem c6_turn_off_deadline_then_power_off (s : DeviceState) (now : Nat) :
    (asyncTurnOff s now).1.end_of_power_off
        = some (now + (DEFAULT_SCAN_INTERVAL + 5)) ∧
    (asyncTurnOff s now).2
        = [Event.setDeadline (now + (DEFAULT_SCAN_INTERVAL + 5)), Event.powerOff] ∧
    (asyncTurnOff s now).2.indexOf
        (Event.setDeadline (now + (DEFAULT_SCAN_INTERVAL + 5)))
      < (asyncTurnOff s now).2.indexOf Event.powerOff := by
  refine ⟨rfl, rfl, ?_⟩
  simp [asyncTurnOff, List.indexOf_cons, SCAN_INTERVAL_PLUS_OFF_TIME]

/-- C5: while the debounce deadline is in the future, a key-sending
command whose first key is not KEY_POWEROFF and any app-launch command
leave the state unchanged and dispatch nothing to the bridge. -/
theorem c5_commands_suppressed_during_debounce (s : DeviceState) (now : Nat)
    (keys : List String) (appId : String)
    (hpo : powerOffInProgress s now = true)
    (hk : keys.head? ≠ some "KEY_POWEROFF") :
    asyncSendKeys s now keys = (s, []) ∧ asyncLaunchApp s now appId = (s, []) := by
  constructor
  · unfold asyncSendKeys
    simp [hpo, hk]
  · unfold asyncLaunchApp
    simp [hpo]

/-- Witness for C5: an explicit state ten seconds before the deadline, a
volume key and an app id. -/
theorem c5_witness :
    powerOffInProgress { baseDev with end_of_power_off := some 10 } 0 = true ∧
    (["KEY_VOLUP"] : List String).head? ≠ some "KEY_POWEROFF" ∧
    (asyncSendKeys { baseDev with end_of_power_off := some 10 } 0 ["KEY_VOLUP"]
        = ({ baseDev with end_of_power_off := some 10 }, []) ∧
      asyncLaunchApp { baseDev with end_of_power_off := some 10 } 0 "3201601007625"
        = ({ baseDev with end_of_power_off := some 10 }, [])) :=
  ⟨by decide, by decide,
    c5_commands_suppressed_during_debounce _ 0 ["KEY_VOLUP"] "3201601007625"
      (by decide) (by decide)⟩

/-- Concrete device for the C1 counterexample: auth failed, deadline 100,
previously reported state ON. -/
def c1Dev : DeviceState :=
  { baseDev with
      auth_failed := true
      end_of_power_off := some 100
      attr_state := some TVState.on }

/-- Counterexample to C1 as stated: with the auth-failure flag set, a tick
whose deadline (100) is in the future (now = 0) returns early and leaves
the previously reported state ON instead of setting it to OFF. -/
theorem c1_counterexample :
    c1Dev.end_of_power_off = some 100 ∧ baseEnv.now < 100 ∧
    (asyncUpdate c1Dev baseEnv).1.attr_state ≠ some TVState.off := by
  refine ⟨rfl, by decide, ?_⟩
  decide

/-- C1 amended: provided the auth-failure flag is unset and the host is
not shutting down, a tick whose debounce deadline is set and in the future
sets the reported state to OFF and performs no is_on bridge query. -/
theorem c1_debounce_tick_reports_off (s : DeviceState) (env : TickEnv)
    (hauth : s.auth_failed = false) (hstop : env.hass_is_stopping = false)
    (t : Nat) (hd : s.end_of_power_off = some t) (hfut : env.now < t) :
    (asyncUpdate s env).1.attr_state = some TVState.off ∧
    ∀ b, Event.isOnQuery b ∉ (asyncUpdate s env).2.1 := by
  have hpo : powerOffInProgress s env.now = true := by
    unfold powerOffInProgress
    rw [hd]
    simpa using hfut
  unfold asyncUpdate
  simp [hauth, hstop, hpo]

/-- Concrete device for the C1 witness: deadline 100, reported state ON,
no auth failure. -/
def w1Dev : DeviceState :=
  { baseDev with
      end_of_power_off := some 100
      attr_state := some TVState.on }

/-- Witness for the amended C1: deadline 100, tick at time 0. -/
theorem c1_witness :
    w1Dev.auth_failed = false ∧ baseEnv.hass_is_stopping = false ∧
    w1Dev.end_of_power_off = some 100 ∧ baseEnv.now < 100 ∧
    ((asyncUpdate w1Dev baseEnv).1.attr_state = some TVState.off ∧
      ∀ b, Event.isOnQuery b ∉ (asyncUpdate w1Dev baseEnv).2.1) :=
  ⟨rfl, rfl, rfl, by decide,
    c1_debounce_tick_reports_off w1Dev baseEnv rfl rfl 100 rfl (by decide)⟩

/-- Concrete device for the C7 counterexample: deadline 5 already expired
at tick time 10. -/
def c7Dev : DeviceState := { baseDev with end_of_power_off := some 5 }

/-- Concrete environment for the C7 counterexample. -/
def c7Env : TickEnv := { baseEnv with now := 10 }

/-- Counterexample to C7 as stated: a tick with an expired deadline
(deadline 5, now 10) reaches the bridge-query branch (the is_on query is in
the trace) yet leaves the stored deadline set to 5 instead of clearing it. -/
theorem c7_counterexample :
    c7Dev.end_of_power_off = some 5 ∧ ¬ c7Env.now < 5 ∧
    Event.isOnQuery false ∈ (asyncUpdate c7Dev c7Env).2.1 ∧
    (asyncUpdate c7Dev c7Env).1.end_of_power_off = some 5 := by
  refine ⟨rfl, by decide, ?_, ?_⟩ <;> decide

/-- Preservation of the stored deadline by the app-list callback. -/
theorem appListCallback_end_of_power_off (s : DeviceState)
    (m : List (String × String)) :
    (appListCallback s m).end_of_power_off = s.end_of_power_off := by
  simp [appListCallback, updateSources]

/-- Preservation of the stored deadline by the app-list startup task. -/
theorem startupAppList_end_of_power_off (s : DeviceState) (env : TickEnv) :
    (asyncStartupAppList s env).1.end_of_power_off = s.end_of_power_off := by
  unfold asyncStartupAppList
  split
  · rfl
  · split
    · exact appListCallback_end_of_power_off _ _
    · rfl

/-- Preservation of the stored deadline by the DMR startup task. -/
theorem startupDmr_end_of_power_off (s : DeviceState) (env : TickEnv) :
    (asyncStartupDmr s env).1.end_of_power_off = s.end_of_power_off := by
  unfold asyncStartupDmr
  split
  · rfl
  · split
    · rfl
    · split <;> rfl

/-- Preservation of the stored deadline by the UPnP refresh. -/
theorem updateFromUpnp_end_of_power_off (s : DeviceState) :
    (updateFromUpnp s).end_of_power_off = s.end_of_power_off := by
  unfold updateFromUpnp
  split
  · rfl
  · split <;> split <;> rfl

/-- Preservation of the stored deadline by the startup fan-out. -/
theorem runStartupTasks_end_of_power_off (s : DeviceState) (env : TickEnv)
    (a d : Bool) :
    (runStartupTasks s env a d).1.end_of_power_off = s.end_of_power_off := by
  cases a <;> cases d <;>
    simp [runStartupTasks, startupDmr_end_of_power_off,
      startupAppList_end_of_power_off]

/-- Preservation of the stored deadline by the tick tail. -/
theorem finishTick_end_of_power_off
    (r : DeviceState × List Event × Option UpnpErr) (t1 : List Event) :
    (finishTick r t1).1.end_of_power_off = r.1.end_of_power_off := by
  unfold finishTick
  split
  · rfl
  · exact updateFromUpnp_end_of_power_off r.1

/-- C7 amended: async_update never modifies the stored debounce deadline;
in particular the bridge-query branch leaves an expired deadline in place
(it merely stops satisfying the in-progress check) rather than clearing
it. -/
theorem c7_update_never_clears_deadline (s : DeviceState) (env : TickEnv) :
    (asyncUpdate s env).1.end_of_power_off = s.end_of_power_off := by
  unfold asyncUpdate
  repeat' split
  all_goals
    first
    | rfl
    | simp [finishTick_end_of_power_off, runStartupTasks_end_of_power_off]

/-- C2: when the subscribe step of Telemetry Session construction fails
with a UPnP error that is neither a subscription rejection nor a
connection failure, the session fully unwinds: handler detached, device
handle cleared to None, receiver stopped and cleared to None, and the
error re-raised. -/
theorem c2_dmr_subscribe_unwind (s : DeviceState) (env : TickEnv)
    (hdmr : s.dmr_device = none)
    (hcr : env.create_device_ok = true)
    (herr : env.subscribe_err = some UpnpErr.otherError) :
    (asyncStartupDmr s env).1.dmr_device = none ∧
    (asyncStartupDmr s env).1.upnp_server = none ∧
    (asyncStartupDmr s env).2.2 = some UpnpErr.otherError ∧
    Event.detachHandler ∈ (asyncStartupDmr s env).2.1 ∧
    Event.serverStop ∈ (asyncStartupDmr s env).2.1 := by
  unfold asyncStartupDmr
  simp [hdmr, hcr, herr]

/-- Concrete environment for the C2 witness: device creation succeeds and
the subscribe call raises a generic UPnP error. -/
def w2Env : TickEnv :=
  { baseEnv with
      is_on := true
      create_device_ok := true
      subscribe_err := some UpnpErr.otherError }

/-- Witness for C2 at baseDev / w2Env. -/
theorem c2_witness :
    baseDev.dmr_device = none ∧ w2Env.create_device_ok = true ∧
    w2Env.subscribe_err = some UpnpErr.otherError ∧
    ((asyncStartupDmr baseDev w2Env).1.dmr_device = none ∧
      (asyncStartupDmr baseDev w2Env).1.upnp_server = none ∧
      (asyncStartupDmr baseDev w2Env).2.2 = some UpnpErr.otherError ∧
      Event.detachHandler ∈ (asyncStartupDmr baseDev w2Env).2.1 ∧
      Event.serverStop ∈ (asyncStartupDmr baseDev w2Env).2.1) :=
  ⟨rfl, rfl, rfl, c2_dmr_subscribe_unwind baseDev w2Env rfl rfl rfl⟩

/-- Concrete device for C3: a rendering-control location is configured. -/
def c3Dev : DeviceState :=
  { baseDev with ssdp_rendering_control_location := some "http://tv:7676/rcr" }

/-- Concrete environment for C3: the TV reports ON, device creation
succeeds, and the subscribe call raises a generic UPnP error. -/
def c3Env : TickEnv :=
  { baseEnv with
      is_on := true
      create_device_ok := true
      subscribe_err := some UpnpErr.otherError }

/-- Counterexample to C3 as stated: the error propagated by Telemetry
Session construction is not caught by async_update — the tick returns with
the exception still escaping (the error component of the tick result is
non-empty). -/
theorem c3_counterexample :
    (asyncUpdate c3Dev c3Env).2.2 = some UpnpErr.otherError := by
  rfl

/-- Inversion for the DMR startup: whenever it escapes with an error, the
resulting state holds neither a device handle nor a receiver. -/
theorem startupDmr_err_inv (s : DeviceState) (env : TickEnv) (e : UpnpErr)
    (h : (asyncStartupDmr s env).2.2 = some e) :
    (asyncStartupDmr s env).1.dmr_device = none ∧
    (asyncStartupDmr s env).1.upnp_server = none := by
  unfold asyncStartupDmr at h ⊢
  repeat' split at h
  all_goals simp_all

/-- Inversion for the startup fan-out: an escaping error comes from the
DMR task, whose unwind leaves no handle and no receiver. -/
theorem runStartupTasks_err_inv (s : DeviceState) (env : TickEnv)
    (a d : Bool) (e : UpnpErr)
    (h : (runStartupTasks s env a d).2.2 = some e) :
    (runStartupTasks s env a d).1.dmr_device = none ∧
    (runStartupTasks s env a d).1.upnp_server = none := by
  cases a <;> cases d <;> simp only [runStartupTasks] at h ⊢ <;>
    simp at h ⊢ <;>
    exact startupDmr_err_inv _ env e h

/-- Inversion for the tick tail: an escaping error is the gather result's
error, and the published state is the gather result's state. -/
theorem finishTick_some (r : DeviceState × List Event × Option UpnpErr)
    (t1 : List Event) (e : UpnpErr)
    (h : (finishTick r t1).2.2 = some e) :
    r.2.2 = some e ∧ (finishTick r t1).1 = r.1 := by
  unfold finishTick at h ⊢
  split at h
  next hc => exact ⟨h, by rw [if_pos hc]⟩
  next hc => simp at h

/-- Shape of a tick result: either no error escapes, or the tick result is
the tail applied to some gather result. -/
theorem asyncUpdate_shape (s : DeviceState) (env : TickEnv) :
    (asyncUpdate s env).2.2 = none ∨
    ∃ s1 t1 a d,
      asyncUpdate s env = finishTick (runStartupTasks s1 env a d) t1 := by
  unfold asyncUpdate
  repeat' split
  all_goals
    first
    | exact Or.inl rfl
    | exact Or.inr ⟨_, _, _, _, rfl⟩

/-- C3 amended: the one error propagated by Telemetry Session construction
is not caught by async_update — it escapes the tick — but the unwind in
the construction leaves the session absent (no device handle, no
receiver), so the next tick is free to retry. -/
theorem c3_escaped_error_leaves_session_absent (s : DeviceState)
    (env : TickEnv) (e : UpnpErr)
    (h : (asyncUpdate s env).2.2 = some e) :
    (asyncUpdate s env).1.dmr_device = none ∧
    (asyncUpdate s env).1.upnp_server = none := by
  rcases asyncUpdate_shape s env with h0 | ⟨s1, t1, a, d, hEq⟩
  · rw [h0] at h
    exact Option.noConfusion h
  · rw [hEq] at h ⊢
    obtain ⟨hr, hfin⟩ := finishTick_some _ _ _ h
    rw [hfin]
    exact runStartupTasks_err_inv _ _ _ _ _ hr

/-- Witness for the amended C3 at c3Dev / c3Env. -/
theorem c3_witness :
    (asyncUpdate c3Dev c3Env).2.2 = some UpnpErr.otherError ∧
    ((asyncUpdate c3Dev c3Env).1.dmr_device = none ∧
      (asyncUpdate c3Dev c3Env).1.upnp_server = none) :=
  ⟨rfl, c3_escaped_error_leaves_session_absent c3Dev c3Env
    UpnpErr.otherError rfl⟩

/-- Trace of the tick tail: the reconciler trace followed by the gather
trace, whether or not an error escaped. -/
theorem finishTick_trace (r : DeviceState × List Event × Option UpnpErr)
    (t1 : List Event) : (finishTick r t1).2.1 = t1 ++ r.2.1 := by
  unfold finishTick
  split <;> rfl

/-- The DMR startup never emits app-list events. -/
theorem startupDmr_trace_no_app (s : DeviceState) (env : TickEnv) :
    Event.requestAppList ∉ (asyncStartupDmr s env).2.1 ∧
    Event.waitAppList ∉ (asyncStartupDmr s env).2.1 := by
  unfold asyncStartupDmr
  repeat' split
  all_goals simp

/-- With the app-list task skipped, the startup fan-out never emits
app-list events. -/
theorem runStartupTasks_trace_no_app (s : DeviceState) (env : TickEnv)
    (d : Bool) :
    Event.requestAppList ∉ (runStartupTasks s env false d).2.1 ∧
    Event.waitAppList ∉ (runStartupTasks s env false d).2.1 := by
  cases d <;>
    simp [runStartupTasks, (startupDmr_trace_no_app s env).1,
      (startupDmr_trace_no_app s env).2]

/-- C4: once the app-list event is set, a tick performs no app-list
network request and never waits for the app-list gate again. -/
theorem c4_resolved_gate_no_network (s : DeviceState) (env : TickEnv)
    (h : s.app_list_event = true) :
    Event.requestAppList ∉ (asyncUpdate s env).2.1 ∧
    Event.waitAppList ∉ (asyncUpdate s env).2.1 := by
  unfold asyncUpdate
  repeat' split
  all_goals
    simp [h, finishTick_trace, runStartupTasks_trace_no_app]

/-- Witness for C4: gate already resolved, TV reports ON. -/
theorem c4_witness :
    ({ baseDev with app_list_event := true } : DeviceState).app_list_event
        = true ∧
    (Event.requestAppList ∉
        (asyncUpdate { baseDev with app_list_event := true }
          { baseEnv with is_on := true }).2.1 ∧
      Event.waitAppList ∉
        (asyncUpdate { baseDev with app_list_event := true }
          { baseEnv with is_on := true }).2.1) :=
  ⟨rfl, c4_resolved_gate_no_network { baseDev with app_list_event := true }
    { baseEnv with is_on := true } rfl⟩

/-- Key sending never mutates entity state. -/
theorem sendKeys_state (s : DeviceState) (now : Nat) (keys : List String) :
    (asyncSendKeys s now keys).1 = s := by
  unfold asyncSendKeys
  split <;> rfl

/-- App launching never mutates entity state. -/
theorem launchApp_state (s : DeviceState) (now : Nat) (appId : String) :
    (asyncLaunchApp s now appId).1 = s := by
  unfold asyncLaunchApp
  split <;> rfl

/-- Volume setting never mutates entity state. -/
theorem setVolumeLevel_state (s : DeviceState) (v : Nat) :
    (asyncSetVolumeLevel s v).1 = s := by
  unfold asyncSetVolumeLevel
  split <;> rfl

/-- Turn-on never mutates entity state. -/
theorem turnOn_state (s : DeviceState) : (asyncTurnOn s).1 = s := by
  unfold asyncTurnOn
  repeat' split
  all_goals rfl

/-- Playing media never mutates entity state. -/
theorem playMedia_state (s : DeviceState) (now : Nat) (ty id2 : String) :
    (asyncPlayMedia s now ty id2).1 = s := by
  unfold asyncPlayMedia
  repeat' split
  all_goals
    first
    | rfl
    | exact launchApp_state _ _ _
    | exact sendKeys_state _ _ _

/-- Source selection never mutates entity state. -/
theorem selectSource_state (s : DeviceState) (now : Nat) (src : String) :
    (asyncSelectSource s now src).1 = s := by
  unfold asyncSelectSource
  repeat' split
  all_goals
    first
    | rfl
    | exact launchApp_state _ _ _
    | exact sendKeys_state _ _ _

/-- Source refresh keeps the app-list event flag. -/
theorem updateSources_event (s : DeviceState) :
    (updateSources s).app_list_event = s.app_list_event := by
  unfold updateSources
  split <;> rfl

/-- The app-list callback always leaves the event flag set. -/
theorem appListCallback_event (s : DeviceState) (m : List (String × String)) :
    (appListCallback s m).app_list_event = true := rfl

/-- The app-list callback stores exactly the delivered map. -/
theorem appListCallback_app_list (s : DeviceState)
    (m : List (String × String)) :
    (appListCallback s m).app_list = some m := by
  unfold appListCallback updateSources
  rfl

/-- After the app-list startup task the event flag is always set. -/
theorem startupAppList_event_true (s : DeviceState) (env : TickEnv) :
    (asyncStartupAppList s env).1.app_list_event = true := by
  unfold asyncStartupAppList
  split
  next hc => exact hc
  next =>
    split
    · exact appListCallback_event _ _
    · rfl

/-- The DMR startup keeps the app-list event flag. -/
theorem startupDmr_event (s : DeviceState) (env : TickEnv) :
    (asyncStartupDmr s env).1.app_list_event = s.app_list_event := by
  unfold asyncStartupDmr
  repeat' split
  all_goals rfl

/-- The UPnP refresh keeps the app-list event flag. -/
theorem updateFromUpnp_event (s : DeviceState) :
    (updateFromUpnp s).app_list_event = s.app_list_event := by
  unfold updateFromUpnp
  repeat' split
  all_goals rfl

/-- The tick tail keeps the app-list event flag of the gather result. -/
theorem finishTick_event (r : DeviceState × List Event × Option UpnpErr)
    (t1 : List Event) :
    (finishTick r t1).1.app_list_event = r.1.app_list_event := by
  unfold finishTick
  split
  · rfl
  · exact updateFromUpnp_event r.1

/-- The startup fan-out keeps the event flag set once it is set. -/
theorem runStartupTasks_event (s : DeviceState) (env : TickEnv) (a d : Bool)
    (h : s.app_list_event = true) :
    (runStartupTasks s env a d).1.app_list_event = true := by
  cases a <;> cases d <;>
    simp [runStartupTasks, startupDmr_event, startupAppList_event_true, h]

/-- A whole tick keeps the event flag set once it is set. -/
theorem asyncUpdate_event (s : DeviceState) (env : TickEnv)
    (h : s.app_list_event = true) :
    (asyncUpdate s env).1.app_list_event = true := by
  unfold asyncUpdate
  repeat' split
  all_goals
    first
    | exact h
    | simp [h, finishTick_event, runStartupTasks_event]

/-- The DMR teardown keeps the app-list event flag. -/
theorem shutdownDmr_event (s : DeviceState) :
    (asyncShutdownDmr s).1.app_list_event = s.app_list_event := by
  unfold asyncShutdownDmr
  dsimp only
  repeat' split
  all_goals rfl

/-- C8: the app-list event flag is monotone across every entry point of
the device instance (once set it is never reset), and a callback firing
after the gate already resolved still replaces the stored map (last write
wins) while the flag stays set. -/
theorem c8_gate_monotone_last_write_wins (s s2 : DeviceState)
    (m : List (String × String)) (h : s.app_list_event = true)
    (hstep : DeviceStep s s2) :
    s2.app_list_event = true ∧
    (appListCallback s m).app_list = some m ∧
    (appListCallback s m).app_list_event = true := by
  refine ⟨?_, appListCallback_app_list s m, appListCallback_event s m⟩
  cases hstep
  all_goals
    first
    | exact h
    | exact asyncUpdate_event _ _ h
    | exact appListCallback_event _ _
    | exact startupAppList_event_true _ _
    | (rw [turnOn_state]; exact h)
    | (rw [sendKeys_state]; exact h)
    | (rw [launchApp_state]; exact h)
    | (rw [setVolumeLevel_state]; exact h)
    | (unfold asyncVolumeUp; rw [sendKeys_state]; exact h)
    | (unfold asyncVolumeDown; rw [sendKeys_state]; exact h)
    | (unfold asyncMuteVolume; rw [sendKeys_state]; exact h)
    | (unfold asyncMediaPlay; rw [sendKeys_state]; exact h)
    | (unfold asyncMediaPause; rw [sendKeys_state]; exact h)
    | (unfold asyncMediaPlayPause
       split <;>
         first
         | (unfold asyncMediaPause; rw [sendKeys_state]; exact h)
         | (unfold asyncMediaPlay; rw [sendKeys_state]; exact h))
    | (unfold asyncMediaNextTrack; rw [sendKeys_state]; exact h)
    | (unfold asyncMediaPreviousTrack; rw [sendKeys_state]; exact h)
    | (rw [playMedia_state]; exact h)
    | (rw [selectSource_state]; exact h)
    | (rw [startupDmr_event]; exact h)
    | (rw [shutdownDmr_event]; exact h)
    | (unfold onUpnpEvent; rw [updateFromUpnp_event]; exact h)

/-- Concrete device for the C8 witness: gate already resolved by a first
delivery. -/
def w8Dev : DeviceState :=
  { baseDev with
      app_list_event := true
      app_list := some [("Netflix", "11101200001")] }

/-- Concrete delivered map for the C8 witness. -/
def w8M : List (String × String) := [("YouTube", "111299001912")]

/-- Witness for C8: a late callback delivery as the step. -/
theorem c8_witness :
    w8Dev.app_list_event = true ∧
    ((appListCallback w8Dev w8M).app_list_event = true ∧
      (appListCallback w8Dev w8M).app_list = some w8M ∧
      (appListCallback w8Dev w8M).app_list_event = true) :=
  ⟨rfl, c8_gate_monotone_last_write_wins w8Dev (appListCallback w8Dev w8M)
    w8M rfl (DeviceStep.appList w8Dev w8M)⟩
